import Mathlib

/-!
Verification development for the DashJump wave-orchestration and
obstacle-lifecycle engine.

The definitions below are a shallow embedding of the JavaScript source:

* `SpawnerState` and its operations embed
  `src/game/controllers/ObstacleSpawner.js` (the per-category
  active-obstacle slots `activeSpike` / `activeBall` / `activeWeave`,
  the three spike variants, ball and weave spawning, and the
  terminal-outcome collision handlers).
* `LevelState` and `LevelManager.startLevel` / `difficultyTick` embed
  `src/game/controllers/LevelManager.js` (difficulty multiplier,
  15-second difficulty event, level-end timer).
* the mini-shower spike timings, the Wave-2 scripted queue
  (`wave2Sequence` / `processNextWave2Step`) and the Wave-3 timeline
  with its continuous weave-fill embed the current revision of
  `src/game/controllers/WaveManager.js` (the revision that defines
  `triggerEndingSequence`, which the BossManager finale requires;
  in this snapshot that revision is bundled with
  `TitleScreenManager.js`).
* `BossState` and its firing operations embed
  `src/game/controllers/BossManager.js` (bullet tracking array,
  `maxBullets` cap, `fireTrackedShot`, `fireShotToPosition`,
  `cleanupBullets`).
* `GameSceneState` with `Game.updateLives` / `Game.gameOver` embeds
  `src/game/scenes/Game.js`.

Times are in milliseconds, positions in pixels (as rationals where the
source uses floating-point pixel coordinates).  Sprites are identified
by natural-number ids; an `Option Nat` slot holding `some i` embeds a
JavaScript field holding a reference to sprite `i`, and `none` embeds
`null`.
-/

namespace DashJump

/-! ## Constants from src/game/config/GameConfig.js -/

/-- GAME_CONFIG.PLAYER.LEFT_X -/
def PLAYER_LEFT_X : ℚ := 255

/-- GAME_CONFIG.PLAYER.RIGHT_X -/
def PLAYER_RIGHT_X : ℚ := 820

/-- GAME_CONFIG.GROUND.Y -/
def GROUND_Y : ℚ := 1634

/-! ## ObstacleSpawner (src/game/controllers/ObstacleSpawner.js)

The spawner keeps one nullable reference per obstacle category
(`activeBall`, `activeSpike`, `activeWeave`).  We additionally count
how many sprites of each category have been created so far, so that
theorems can speak about "exactly one spike was spawned". -/

structure SpawnerState where
  activeSpike : Option Nat
  activeBall : Option Nat
  activeWeave : Option Nat
  nextId : Nat
  spikesSpawned : Nat
  ballsSpawned : Nat
  weavesSpawned : Nat
deriving DecidableEq, Repr

/-- State right after `new ObstacleSpawner(...)`: all three slots null. -/
def SpawnerState.init : SpawnerState :=
  { activeSpike := none, activeBall := none, activeWeave := none
    nextId := 0, spikesSpawned := 0, ballsSpawned := 0, weavesSpawned := 0 }

/-- clearAllObstacles(): clears the three tracking references without
destroying the sprites (they keep living and "exit naturally"). -/
def clearAllObstacles (s : SpawnerState) : SpawnerState :=
  { s with activeSpike := none, activeBall := none, activeWeave := none }

/-- spawnTargetedSpike(): creates a spike sprite at the player x and
unconditionally overwrites `this.activeSpike` with it.  There is no
occupancy check in the source. -/
def spawnTargetedSpike (s : SpawnerState) : SpawnerState :=
  { s with activeSpike := some s.nextId
           nextId := s.nextId + 1
           spikesSpawned := s.spikesSpawned + 1 }

/-- spawnLaneSpike(x): creates a spike sprite at a fixed lane x and
unconditionally overwrites `this.activeSpike` with it. -/
def spawnLaneSpike (s : SpawnerState) : SpawnerState :=
  { s with activeSpike := some s.nextId
           nextId := s.nextId + 1
           spikesSpawned := s.spikesSpawned + 1 }

/-- spawnShowerSpike(x): creates a spike sprite but never touches
`this.activeSpike` — shower spikes are completely untracked. -/
def spawnShowerSpike (s : SpawnerState) : SpawnerState :=
  { s with nextId := s.nextId + 1
           spikesSpawned := s.spikesSpawned + 1 }

/-- spawnBall(): returns immediately when any of the three slots is
occupied (`if (this.activeBall || this.activeSpike || this.activeWeave)
return;`); otherwise creates the ball and stores it in `activeBall`. -/
def spawnBall (s : SpawnerState) : SpawnerState :=
  if s.activeBall ≠ none ∨ s.activeSpike ≠ none ∨ s.activeWeave ≠ none then s
  else
    { s with activeBall := some s.nextId
             nextId := s.nextId + 1
             ballsSpawned := s.ballsSpawned + 1 }

/-- spawnWeave(): returns immediately when any of the three slots is
occupied (`if (this.activeWeave || this.activeBall || this.activeSpike)
return;`); otherwise creates the weave and stores it in `activeWeave`. -/
def spawnWeave (s : SpawnerState) : SpawnerState :=
  if s.activeWeave ≠ none ∨ s.activeBall ≠ none ∨ s.activeSpike ≠ none then s
  else
    { s with activeWeave := some s.nextId
             nextId := s.nextId + 1
             weavesSpawned := s.weavesSpawned + 1 }

/-! ### Terminal-outcome handlers (setupObstacleCollision and the
exit-check timers)

Each handler closes over the sprite it was registered for; we pass that
sprite (and, for the exit checks, the data the closure reads from it)
as explicit arguments. -/

/-- Ground-collision callback for a spike sprite: the slot is cleared
only when `this.activeSpike === sprite` (identity-guarded release);
then the sprite fades out and is destroyed. -/
def groundImpactHandler (sprite : Nat) (s : SpawnerState) : SpawnerState :=
  if s.activeSpike = some sprite then { s with activeSpike := none } else s

/-- Player-overlap callback (all obstacle categories): destroys the
sprite, then clears each slot whose occupant is identical to the
sprite, then signals damage via `scene.updateLives()`.  Only the slot
effect is modelled here. -/
def playerHitHandler (sprite : Nat) (s : SpawnerState) : SpawnerState :=
  { s with
    activeSpike := if s.activeSpike = some sprite then none else s.activeSpike
    activeBall := if s.activeBall = some sprite then none else s.activeBall
    activeWeave := if s.activeWeave = some sprite then none else s.activeWeave }

/-- Off-screen exit-check callback for a ball (the 100ms repeating
timer registered in spawnBall): `if (ball.active && (ball.x < -400 ||
ball.x > 1500)) { ball.destroy(); this.activeBall = null; }`.  Note
that `this.activeBall` is nulled without comparing it to `ball`. -/
def ballExitHandler (ballActive : Bool) (ballX : ℚ) (s : SpawnerState) :
    SpawnerState :=
  if ballActive = true ∧ (ballX < -400 ∨ ballX > 1500) then
    { s with activeBall := none }
  else s

/-- Off-screen exit-check callback for a weave (the 250ms repeating
timer registered in spawnWeave): when the weave sprite is no longer
active, or when `weave.y > 2000`, `this.activeWeave` is set to null
without comparing it to `weave`. -/
def weaveExitHandler (weaveActive : Bool) (weaveY : ℚ) (s : SpawnerState) :
    SpawnerState :=
  if weaveActive = false then { s with activeWeave := none }
  else if weaveY > 2000 then { s with activeWeave := none }
  else s

/-! ## LevelManager (src/game/controllers/LevelManager.js) -/

structure LevelState where
  isActive : Bool
  currentWave : Nat
  difficultyMultiplier : ℚ
  /-- whether the repeating 15000ms difficulty event is registered -/
  difficultyEventActive : Bool
  /-- absolute offset (ms after wave start) at which the stored
  level-end timer will call stopLevel, when one was registered -/
  levelEndAt : Option Nat
deriving DecidableEq, Repr

/-- State after `new LevelManager(...)`. -/
def LevelState.init : LevelState :=
  { isActive := false, currentWave := 1, difficultyMultiplier := 1
    difficultyEventActive := false, levelEndAt := none }

/-- startLevel(durationSeconds, waveNumber): activates the level,
resets `difficultyMultiplier` to 1 and, for every wave other than
Wave 3, registers the repeating 15s difficulty event and a level-end
timer firing after durationSeconds * 1000 ms. -/
def LevelManager.startLevel (s : LevelState) (durationSeconds waveNumber : Nat) :
    LevelState :=
  { s with isActive := true
           currentWave := waveNumber
           difficultyMultiplier := 1
           difficultyEventActive := waveNumber ≠ 3
           levelEndAt := if waveNumber ≠ 3 then some (durationSeconds * 1000)
                         else none }

/-- One firing of the repeating difficulty event
(`this.difficultyMultiplier += 0.2` every 15000 ms); it can only fire
while the event is registered. -/
def difficultyTick (s : LevelState) : LevelState :=
  if s.difficultyEventActive then
    { s with difficultyMultiplier := s.difficultyMultiplier + 2/10 }
  else s

/-! ### Targeted-spike spawn parameters
(spawnTargetedSpike in ObstacleSpawner.js) -/

/-- Base fall gravity constant appearing in
`spike.setGravityY(4000 * this.difficultyMultiplier)`. -/
def SPIKE_BASE_GRAVITY : ℚ := 4000

/-- Warning-phase (slow descent) tween duration:
`duration: 800 / this.difficultyMultiplier`. -/
def targetedSpikeWarningDuration (m : ℚ) : ℚ := 800 / m

/-- Fall gravity once the spike becomes armed:
`spike.setGravityY(4000 * this.difficultyMultiplier)`. -/
def targetedSpikeFallGravity (m : ℚ) : ℚ := SPIKE_BASE_GRAVITY * m

/-! ## WaveManager combo scenario: scenarioTheTrap
(src/game/controllers/WaveManager.js lines 172-182) -/

/-- Callbacks the Trap scenario leaves on the clock
(`delayedCall(800, () => spawnTargetedSpike())`). -/
inductive TrapDelayed
  | trapSpike
deriving DecidableEq, Repr

/-- scenarioTheTrap(): with a ball or spike already live it falls back
to a single targeted spike and schedules nothing; otherwise it spawns a
ball now and schedules a targeted spike 800 ms later. -/
def scenarioTheTrap (s : SpawnerState) :
    SpawnerState × List (Nat × TrapDelayed) :=
  if s.activeBall ≠ none ∨ s.activeSpike ≠ none then
    (spawnTargetedSpike s, [])
  else
    (spawnBall s, [(800, TrapDelayed.trapSpike)])

/-! ## Lane-spike kinematics and the mini-shower timeline
(spawnLaneSpike in ObstacleSpawner.js; spawnMiniSpikeShower in
WaveManager.js)

spawnLaneSpike tweens the spike from y = -100 to y = 150 over 500 ms
(the warning phase), then enables gravity 4500 px/s².  The spike stays
live until it reaches the ground (GROUND_Y) or hits the player; we
model the run in which the player dodges every spike. -/

/-- Warning tween duration of spawnLaneSpike (`duration: 500`). -/
def LANE_SPIKE_WARNING_MS : ℚ := 500

/-- Armed gravity of a lane spike (`spike.setGravityY(4500)`),
in px/s². -/
def LANE_SPIKE_GRAVITY : ℚ := 4500

/-- Vertical position of a lane spike `a` milliseconds after its
spawn, absent a player hit: linear tween from -100 to 150 during the
warning phase, then free fall from rest under LANE_SPIKE_GRAVITY
(time converted from ms to s). -/
def laneSpikeY (a : ℚ) : ℚ :=
  if a ≤ LANE_SPIKE_WARNING_MS then -100 + 250 * a / LANE_SPIKE_WARNING_MS
  else 150 + LANE_SPIKE_GRAVITY / 2 * ((a - LANE_SPIKE_WARNING_MS) / 1000) ^ 2

/-- A lane spike spawned at `spawn` ms is live (already created, not
yet at the ground) at time `t` ms. -/
def laneSpikeLiveAt (spawn t : ℚ) : Prop :=
  spawn ≤ t ∧ laneSpikeY (t - spawn) < GROUND_Y

instance (spawn t : ℚ) : Decidable (laneSpikeLiveAt spawn t) := by
  unfold laneSpikeLiveAt; exact instDecidableAnd

/-- Delays (ms) of the three delayed lane-spike spawns registered by
spawnMiniSpikeShower: `{ x: LEFT_X, delay: 0 }, { x: RIGHT_X, delay:
500 }, { x: LEFT_X, delay: 1000 }`; each callback calls spawnLaneSpike
unconditionally whenever `levelManager.isActive`. -/
def miniShowerSpikeDelays : List ℚ := [0, 500, 1000]

/-- Number of mini-shower lane spikes simultaneously live at time `t`
(in the run where the level stays active and no spike hits the
player). -/
def miniShowerLiveSpikes (t : ℚ) : Nat :=
  (miniShowerSpikeDelays.filter fun d => decide (laneSpikeLiveAt d t)).length

/-! ## Wave 2 — scripted queue (startWave2Sequence /
processNextWave2Step in the current WaveManager revision)

Wave 2 holds a fixed ordered array `this.wave2Sequence` of 31 step
descriptors and an index `this.wave2SequenceIndex`.
`processNextWave2Step()` returns when the level is inactive, calls
`levelManager.stopLevel()` when the index has reached the end of the
array, and otherwise reads the step at the index, increments the
index, and routes to the step's spawn-and-wait method.  Every
spawn-and-wait method (spike, ball, weave, miniShower) starts with the
identical occupancy check — `activeSpike || activeBall || activeWeave
|| isShowerActive` — and on conflict retries after 200 ms after
decrementing the index back, so the same step is re-read; otherwise it
spawns its obstacle, polls every 100 ms until the category clears, and
waits a settle delay (300 ms for single obstacles, 500 ms after a
mini-shower) before processing the next step. -/

inductive W2StepType
  | spike
  | ball
  | weave
  | miniShower
deriving DecidableEq, Repr

/-- The 31-step `this.wave2Sequence` array, in source order. -/
def wave2Sequence : List W2StepType :=
  [.spike, .ball, .spike, .ball, .weave, .miniShower, .ball, .weave,
   .miniShower, .ball, .miniShower, .ball, .miniShower, .weave, .ball,
   .weave, .ball, .weave, .ball, .weave, .miniShower, .ball, .weave,
   .miniShower, .weave, .spike, .ball, .weave, .miniShower,
   .miniShower, .miniShower]

/-- Settle delay after a cleared step (300 ms for single obstacles,
500 ms after a mini-shower). -/
def wave2SettleDelay (step : W2StepType) : Nat :=
  match step with
  | .miniShower => 500
  | _ => 300

/-- Net outcome of one `processNextWave2Step()` invocation. -/
inductive W2StepResult
  /-- level no longer active: return without doing anything -/
  | halted
  /-- index reached the end of the queue: `levelManager.stopLevel()`
  runs, which triggers the wave-ending sequence -/
  | waveEnded
  /-- occupancy conflict: the step retries after the given delay
  without the queue index advancing -/
  | retrySame (ms : Nat)
  /-- the step's obstacle was spawned; the queue index advances by
  exactly one -/
  | executed (step : W2StepType)
deriving DecidableEq, Repr

/-- processNextWave2Step(), as a function of the level-active flag,
the spawner slots, the shower-in-progress flag and the queue index;
returns the outcome and the queue index for the next invocation (the
source increments the index before routing and decrements it again in
the retry branch, so a retried step is re-read unchanged). -/
def processNextWave2Step (isActive : Bool) (spawner : SpawnerState)
    (isShowerActive : Bool) (idx : Nat) : W2StepResult × Nat :=
  if isActive = false then (.halted, idx)
  else if wave2Sequence.length ≤ idx then (.waveEnded, idx)
  else
    match wave2Sequence[idx]? with
    | none => (.waveEnded, idx)
    | some step =>
        if spawner.activeSpike ≠ none ∨ spawner.activeBall ≠ none ∨
            spawner.activeWeave ≠ none ∨ isShowerActive = true then
          (.retrySame 200, idx)
        else (.executed step, idx + 1)

/-! ## Wave 3 timeline and continuous weave fill (startWave3Sequence /
startWave3WeaveSpawning in the current WaveManager revision)

`scheduleEvent(callback, delay)` registers the callback at
`currentTime + delay` and advances the cursor by `delay`.  Every
action of the fixed timeline is scheduled through the idiom
`scheduleEvent(action, 0); scheduleEvent(() => {}, gap)`; the
timeline ends with `scheduleEvent(startWave3WeaveSpawning, 0);
scheduleEvent(() => {}, 30000); scheduleEvent(stopWeaves + stopLevel,
0)`. -/

inductive W3Action
  | targetedSpike
  | ball
  /-- startSpikeShower() -/
  | showerStart
  /-- bossFiresToLaneWithEntryExit(PLAYER.LEFT_X, shots) -/
  | laneAttackL (shots : Nat)
  /-- bossFiresToLaneWithEntryExit(PLAYER.RIGHT_X, shots) -/
  | laneAttackR (shots : Nat)
  /-- startWave3WeaveSpawning() -/
  | weaveFillStart
  /-- `this.stopWave3WeaveSpawning(); this.levelManager.stopLevel();` -/
  | weaveFillStopAndEnd
  /-- scheduleEvent(() => {}, gap) filler -/
  | noop
deriving DecidableEq, Repr

structure W3Builder where
  cursor : Nat
  events : List (Nat × W3Action)
deriving DecidableEq, Repr

/-- scheduleEvent(callback, delay). -/
def schedEvent (b : W3Builder) (a : W3Action) (delay : Nat) : W3Builder :=
  { cursor := b.cursor + delay
    events := b.events ++ [(b.cursor + delay, a)] }

/-- The `scheduleEvent(action, 0); scheduleEvent(() => {}, gap)`
idiom. -/
def w3act (a : W3Action) (gap : Nat) (b : W3Builder) : W3Builder :=
  schedEvent (schedEvent b a 0) .noop gap

/-- The fixed absolute-offset portion of startWave3Sequence, in source
order (each boss lane attack is followed by a 17000 ms gap: 1 s
warning plus 16 s attack). -/
def wave3OpeningSteps : List (W3Action × Nat) :=
  [(.targetedSpike, 2000), (.targetedSpike, 2000), (.showerStart, 7000),
   (.targetedSpike, 2000), (.ball, 2000), (.targetedSpike, 2000),
   (.ball, 2000), (.ball, 2000), (.laneAttackL 10, 17000),
   (.targetedSpike, 2000), (.ball, 2000), (.showerStart, 7000),
   (.laneAttackR 10, 17000)]

def wave3Opening : W3Builder :=
  wave3OpeningSteps.foldl (fun b p => w3act p.1 p.2 b) ⟨0, []⟩

/-- Duration of the continuous weave section
(`scheduleEvent(() => {}, 30000)`). -/
def WEAVE_FILL_DURATION_MS : Nat := 30000

/-- Repeat delay of the weave-fill check (`delay: 300` — the source
comment records it was raised from 200 ms). -/
def WEAVE_FILL_CHECK_MS : Nat := 300

/-- The complete schedule laid down by startWave3Sequence: the fixed
timeline, then the weave-fill start, the 30-second weave section, and
the closing event that stops the fill and calls stopLevel. -/
def wave3Schedule : W3Builder :=
  schedEvent
    (schedEvent (schedEvent wave3Opening .weaveFillStart 0) .noop
      WEAVE_FILL_DURATION_MS)
    .weaveFillStopAndEnd 0

/-- Absolute offset at which the continuous weave fill starts. -/
def wave3WeaveFillStartAt : Nat :=
  ((wave3Schedule.events.filter fun e =>
      e.2 == W3Action.weaveFillStart).map Prod.fst).headD 0

/-- Absolute offset of the closing event (stop weaves, stopLevel). -/
def wave3EndAt : Nat :=
  ((wave3Schedule.events.filter fun e =>
      e.2 == W3Action.weaveFillStopAndEnd).map Prod.fst).headD 0

/-! ### The weave-fill loop itself

startWave3WeaveSpawning() spawns one weave immediately and registers a
repeating 300 ms check that spawns a new weave whenever none is live
and the level is active; stopWave3WeaveSpawning() removes the check
and deliberately leaves any in-flight weave alive ("Active weave
allowed to exit naturally"). -/

structure WeaveFill where
  /-- whether the repeating check timer is registered -/
  intervalActive : Bool
  spawner : SpawnerState
deriving DecidableEq, Repr

/-- spawnWeaveForWave3(): guarded single-weave spawn. -/
def spawnWeaveForWave3 (s : SpawnerState) : SpawnerState :=
  if s.activeWeave ≠ none then s else spawnWeave s

/-- startWave3WeaveSpawning(): spawn the first weave immediately and
register the repeating check. -/
def startWave3WeaveSpawning (s : SpawnerState) : WeaveFill :=
  { intervalActive := true, spawner := spawnWeaveForWave3 s }

/-- One firing of the repeating weave-fill check
(`if (!this.obstacleSpawner.activeWeave && this.levelManager.isActive)
this.spawnWeaveForWave3();`).  The callback can only fire while the
check timer is registered. -/
def weaveFillTick (isActive : Bool) (w : WeaveFill) : WeaveFill :=
  if w.intervalActive = true ∧ w.spawner.activeWeave = none ∧
      isActive = true then
    { w with spawner := spawnWeaveForWave3 w.spawner }
  else w

/-- stopWave3WeaveSpawning(): removes the repeating check; the spawner
state — in particular any in-flight weave — is untouched. -/
def stopWave3WeaveSpawning (w : WeaveFill) : WeaveFill :=
  { w with intervalActive := false }

/-! ## BossManager (src/game/controllers/BossManager.js)

Bullets are identified by id; `activeBullets` is the tracking array
(oldest first, JS push appends / shift removes the front) and
`liveBullets` holds the ids of every created and not yet destroyed
bullet sprite, tracked or not. -/

structure BossBullet where
  id : Nat
  x : ℚ
  y : ℚ
deriving DecidableEq, Repr

/-- Off-screen test of cleanupBullets (generous bounds):
`sprite.y > 2000 || sprite.y < -500 || sprite.x < -500 ||
sprite.x > 1600`. -/
def bulletOffScreen (b : BossBullet) : Prop :=
  b.y > 2000 ∨ b.y < -500 ∨ b.x < -500 ∨ b.x > 1600

instance (b : BossBullet) : Decidable (bulletOffScreen b) := by
  unfold bulletOffScreen; infer_instance

structure BossState where
  bossPresent : Bool
  /-- levelManager.currentWave as read at call time -/
  currentWave : Nat
  maxBullets : Nat
  /-- this.activeBullets, oldest first -/
  activeBullets : List BossBullet
  /-- ids of all created, not yet destroyed bullet sprites -/
  liveBullets : List Nat
  nextId : Nat
deriving DecidableEq, Repr

/-- BossManager constructor:
`this.maxBullets = this.levelManager?.currentWave === 3 ? 5 : 10`,
frozen at construction time.  LevelManager constructs its BossManager
inside its own constructor, where currentWave is still 1. -/
def BossManager.init (waveAtConstruction : Nat) : BossState :=
  { bossPresent := false, currentWave := waveAtConstruction
    maxBullets := if waveAtConstruction = 3 then 5 else 10
    activeBullets := [], liveBullets := [], nextId := 0 }

/-- createBullet(x, y): a fresh live bullet sprite at the boss
position; not yet in any tracking array. -/
def createBullet (s : BossState) (x y : ℚ) : BossBullet × BossState :=
  ({ id := s.nextId, x := x, y := y },
   { s with liveBullets := s.liveBullets ++ [s.nextId]
            nextId := s.nextId + 1 })

/-- cleanupBullets(): filters the tracking array, keeping only bullets
whose sprite is still active and on-screen; off-screen tracked bullets
are destroyed. -/
def cleanupBullets (s : BossState) : BossState :=
  let goneIds :=
    (s.activeBullets.filter fun b =>
      decide (b.id ∈ s.liveBullets) && decide (bulletOffScreen b)).map
      fun b => b.id
  { s with
    activeBullets := s.activeBullets.filter fun b =>
      decide (b.id ∈ s.liveBullets) && !(decide (bulletOffScreen b))
    liveBullets := s.liveBullets.filter fun i => decide (i ∉ goneIds) }

/-- fireTrackedShot(shotNumber): cleanup, then — only when
`this.levelManager.currentWave === 3` and the tracking array has
reached maxBullets — destroy the oldest tracked bullet (shift), then
create a bullet at the boss position and push it. -/
def fireTrackedShot (bossX bossY : ℚ) (s : BossState) : BossState :=
  let s1 := cleanupBullets s
  let s2 :=
    if s1.currentWave = 3 ∧ s1.maxBullets ≤ s1.activeBullets.length then
      match s1.activeBullets with
      | [] => s1
      | oldest :: rest =>
          { s1 with activeBullets := rest
                    liveBullets := s1.liveBullets.filter fun i =>
                      decide (i ≠ oldest.id) }
    else s1
  let p := createBullet s2 bossX bossY
  { p.2 with activeBullets := p.2.activeBullets ++ [p.1] }

/-- fireShotToPosition(targetX, targetY): the lane-attack shot.  When
a boss is present it creates a bullet at the boss position and
registers its player-overlap listener; the bullet is never pushed onto
the tracking array and no cap is consulted. -/
def fireShotToPosition (bossX bossY : ℚ) (s : BossState) : BossState :=
  if s.bossPresent = false then s
  else (createBullet s bossX bossY).2

/-- BossManager as it exists in the real game (constructed by
LevelManager at wave 1) once the Wave-3 finale is running with the
boss on screen. -/
def bossFinaleState : BossState :=
  { BossManager.init 1 with bossPresent := true, currentWave := 3 }

/-- Eleven lane-attack shots in a row (the Wave-3 finale fires 10 per
lane attack and runs several lane attacks). -/
def elevenLaneShots : BossState :=
  (fireShotToPosition 540 400)^[11] bossFinaleState

/-- A Wave-3 state at the tracked-bullet cap: maxBullets as fixed by
construction during Wave 3 (5), with five live on-screen tracked
bullets. -/
def capDemoState : BossState :=
  { bossPresent := true, currentWave := 3, maxBullets := 5
    activeBullets :=
      [⟨0, 540, 400⟩, ⟨1, 540, 500⟩, ⟨2, 500, 600⟩, ⟨3, 600, 700⟩,
       ⟨4, 540, 800⟩]
    liveBullets := [0, 1, 2, 3, 4], nextId := 5 }

/-! ## Game scene (src/game/scenes/Game.js) -/

structure GameSceneState where
  lives : Int
  currentWave : Nat
  levelActive : Bool
  difficultyEventActive : Bool
  levelEndTimerActive : Bool
  /-- number of events pending on the scene clock -/
  pendingEvents : Nat
  physicsPaused : Bool
  playerTinted : Bool
  gameOverShown : Bool
  restartWaveRegistry : Option Nat
  /-- the obstacleSpawner with its per-category slots -/
  spawner : SpawnerState
deriving DecidableEq, Repr

/-- gameOver(): records the restart wave, deactivates the level,
removes the level timers, cancels every pending scheduled event
(`this.time.removeAllEvents()`), pauses physics, tints the player and
shows the game-over screen.  The obstacleSpawner slots are not
touched. -/
def Game.gameOver (s : GameSceneState) : GameSceneState :=
  { s with restartWaveRegistry := some s.currentWave
           levelActive := false
           difficultyEventActive := false
           levelEndTimerActive := false
           pendingEvents := 0
           physicsPaused := true
           playerTinted := true
           gameOverShown := true }

/-- updateLives(): decrements the life counter, refreshes the heart
UI, shakes the camera, and calls gameOver() once lives reach zero. -/
def Game.updateLives (s : GameSceneState) : GameSceneState :=
  let s1 := { s with lives := s.lives - 1 }
  if s1.lives ≤ 0 then Game.gameOver s1 else s1

/-- A mid-Wave-2 state with one life left, a live tracked spike, and
four callbacks pending on the clock. -/
def hitState : GameSceneState :=
  { lives := 1, currentWave := 2, levelActive := true
    difficultyEventActive := true, levelEndTimerActive := true
    pendingEvents := 4, physicsPaused := false, playerTinted := false
    gameOverShown := false, restartWaveRegistry := none
    spawner := { SpawnerState.init with activeSpike := some 7 } }

/-! # Theorems -/

/-! ## Helper lemmas -/

/-- The difficulty event stays registered (or unregistered) across a
firing of the event. -/
theorem difficultyTick_eventActive (s : LevelState) :
    (difficultyTick s).difficultyEventActive = s.difficultyEventActive := by
  unfold difficultyTick; split <;> rfl

/-- Without a registered difficulty event, a tick changes nothing. -/
theorem difficultyTick_inactive (s : LevelState)
    (h : s.difficultyEventActive = false) : difficultyTick s = s := by
  unfold difficultyTick
  rw [if_neg (by simp [h])]

/-- With the difficulty event registered, `k` firings add exactly
`k * 0.2` to the multiplier. -/
theorem iterate_difficultyTick_active (k : Nat) (s : LevelState)
    (h : s.difficultyEventActive = true) :
    (difficultyTick^[k] s).difficultyMultiplier
      = s.difficultyMultiplier + k * (1/5 : ℚ) := by
  induction k generalizing s with
  | zero => simp
  | succ n ih =>
      rw [Function.iterate_succ_apply]
      have h2 : (difficultyTick s).difficultyEventActive = true := by
        rw [difficultyTick_eventActive]; exact h
      rw [ih _ h2]
      unfold difficultyTick
      rw [if_pos h]
      push_cast
      ring

/-- cleanupBullets only ever shrinks the tracking array. -/
theorem cleanupBullets_length_le (s : BossState) :
    (cleanupBullets s).activeBullets.length ≤ s.activeBullets.length :=
  List.length_filter_le _ _

theorem cleanupBullets_wave (s : BossState) :
    (cleanupBullets s).currentWave = s.currentWave := rfl

theorem cleanupBullets_max (s : BossState) :
    (cleanupBullets s).maxBullets = s.maxBullets := rfl

theorem cleanupBullets_nextId (s : BossState) :
    (cleanupBullets s).nextId = s.nextId := rfl

/-! ## C1 — per-category mutual exclusion -/

/-- C1 counterexample.  The claim says that at every instant at most
one live obstacle exists per category, including during the shower and
mini-shower sequences.  In the mini-shower, lane spikes are spawned at
0 ms, 500 ms and 1000 ms; at t = 1200 ms all three are simultaneously
live (the first is still falling — it only reaches the ground around
1312 ms — the second is 200 ms into its fall, the third still in its
warning tween), so three live spikes coexist in the spike category. -/
theorem mini_shower_three_simultaneous_spikes :
    miniShowerLiveSpikes 1200 = 3 ∧ 1 < miniShowerLiveSpikes 1200 := by
  have h0 : laneSpikeLiveAt 0 1200 := by
    unfold laneSpikeLiveAt laneSpikeY LANE_SPIKE_WARNING_MS LANE_SPIKE_GRAVITY GROUND_Y
    norm_num
  have h5 : laneSpikeLiveAt 500 1200 := by
    unfold laneSpikeLiveAt laneSpikeY LANE_SPIKE_WARNING_MS LANE_SPIKE_GRAVITY GROUND_Y
    norm_num
  have h10 : laneSpikeLiveAt 1000 1200 := by
    unfold laneSpikeLiveAt laneSpikeY LANE_SPIKE_WARNING_MS LANE_SPIKE_GRAVITY GROUND_Y
    norm_num
  have hc : miniShowerLiveSpikes 1200 = 3 := by
    simp [miniShowerLiveSpikes, miniShowerSpikeDelays,
      decide_eq_true h0, decide_eq_true h5, decide_eq_true h10]
  exact ⟨hc, by omega⟩

/-- C1 (amended): the rolling-hazard and weaving-hazard spawners do
refuse to create anything while their slot is occupied, so at most one
rolling and at most one weaving hazard can be live from the spawner
paths; for spikes the guarantee fails during showers, where up to all
three mini-shower spikes are simultaneously live (never more than
three from one mini-shower). -/
theorem per_category_liveness_bounds :
    (∀ t : ℚ, miniShowerLiveSpikes t ≤ 3) ∧
    (∀ s : SpawnerState, s.activeBall ≠ none → spawnBall s = s) ∧
    (∀ s : SpawnerState, s.activeWeave ≠ none → spawnWeave s = s) := by
  refine ⟨fun t => ?_, fun s h => ?_, fun s h => ?_⟩
  · have hle := List.length_filter_le
      (fun d => decide (laneSpikeLiveAt d t)) miniShowerSpikeDelays
    simpa [miniShowerLiveSpikes, miniShowerSpikeDelays] using hle
  · simp [spawnBall, h]
  · simp [spawnWeave, h]

/-- C1 witness: the amended statement evaluated at t = 0 and at a
concrete occupied state. -/
theorem per_category_liveness_bounds_witness :
    miniShowerLiveSpikes 0 ≤ 3 ∧
    spawnBall { SpawnerState.init with activeBall := some 4 }
      = { SpawnerState.init with activeBall := some 4 } :=
  ⟨per_category_liveness_bounds.1 0,
   per_category_liveness_bounds.2.1 _ (by decide)⟩

/-! ## C2 — Wave 2 scripted queue -/

/-- C2: Wave 2 processes the fixed 31-step `wave2Sequence` strictly in
order: whenever any category slot or the shower-in-progress flag is
occupied, the pending step retries after 200 ms without the index
advancing (so no step executes while anything is occupied and no step
is skipped); with everything clear, exactly the descriptor at the
current index executes and the index advances by exactly one; and once
the index reaches the end of the queue, the invocation always calls
stopLevel, transitioning the level to wave-ending. -/
theorem wave2_scripted_queue (spawner : SpawnerState) (fl : Bool)
    (idx : Nat) :
    wave2Sequence.length = 31 ∧
    ((spawner.activeSpike ≠ none ∨ spawner.activeBall ≠ none ∨
        spawner.activeWeave ≠ none ∨ fl = true) →
      idx < wave2Sequence.length →
        processNextWave2Step true spawner fl idx
          = (W2StepResult.retrySame 200, idx)) ∧
    ((spawner.activeSpike = none ∧ spawner.activeBall = none ∧
        spawner.activeWeave = none ∧ fl = false) →
      ∀ h : idx < wave2Sequence.length,
        processNextWave2Step true spawner fl idx
          = (W2StepResult.executed (wave2Sequence.get ⟨idx, h⟩), idx + 1)) ∧
    (wave2Sequence.length ≤ idx →
      processNextWave2Step true spawner fl idx
        = (W2StepResult.waveEnded, idx)) := by
  refine ⟨rfl, fun hocc hlt => ?_, fun hfree h => ?_, fun hend => ?_⟩
  · unfold processNextWave2Step
    rw [if_neg (by simp), if_neg (by omega),
      List.getElem?_eq_getElem hlt]
    simp only [if_pos hocc]
  · unfold processNextWave2Step
    rw [if_neg (by simp), if_neg (by omega),
      List.getElem?_eq_getElem h]
    dsimp only
    rw [if_neg (by simp [hfree.1, hfree.2.1, hfree.2.2.1, hfree.2.2.2])]
    rfl
  · unfold processNextWave2Step
    rw [if_neg (by simp), if_pos hend]

/-- C2 witness: with every slot clear and no shower in progress, step
index 4 executes exactly the fifth descriptor (the first weave
introduction) and advances the queue to index 5; and at index 31 the
queue is exhausted and the wave ends. -/
theorem wave2_scripted_queue_witness :
    processNextWave2Step true SpawnerState.init false 4
      = (W2StepResult.executed W2StepType.weave, 5) ∧
    processNextWave2Step true SpawnerState.init false 31
      = (W2StepResult.waveEnded, 31) := by
  constructor
  · have h := (wave2_scripted_queue SpawnerState.init false 4).2.2.1
      ⟨rfl, rfl, rfl, rfl⟩ (by decide)
    rw [h]
    rfl
  · exact (wave2_scripted_queue SpawnerState.init false 31).2.2.2 (by decide)

/-! ## C3 — boss projectile cap -/

/-- C3 counterexample.  The claim says the live-projectile count never
exceeds the cap for every firing operation including lane-attack
shots.  But fireShotToPosition neither consults the cap nor pushes the
bullet onto the tracking array: starting from the real game's
BossManager (constructed at wave 1, so maxBullets = 10, not 5) during
the Wave-3 finale with the boss on screen, eleven lane-attack shots
leave eleven live bullets — above both caps — while the tracking array
stays empty. -/
theorem lane_shots_bypass_projectile_cap :
    elevenLaneShots.liveBullets.length = 11 ∧
    bossFinaleState.maxBullets = 10 ∧
    elevenLaneShots.maxBullets = 10 ∧
    elevenLaneShots.currentWave = 3 ∧
    elevenLaneShots.activeBullets.length = 0 ∧
    10 < 11 := by decide

/-- C3 (amended): the cap is enforced only by fireTrackedShot and only
while currentWave = 3, against the maxBullets value frozen at
construction: under those conditions the tracking array never grows
past maxBullets, and when the cleaned array has already reached the
cap the evicted bullet is exactly its head (the oldest, since push
appends and shift removes the front).  Lane-attack shots are neither
tracked nor capped. -/
theorem fireTrackedShot_cap (bossX bossY : ℚ) (s : BossState)
    (hw : s.currentWave = 3) (hm : 1 ≤ s.maxBullets)
    (hlen : s.activeBullets.length ≤ s.maxBullets) :
    (fireTrackedShot bossX bossY s).activeBullets.length ≤ s.maxBullets ∧
    (s.maxBullets ≤ (cleanupBullets s).activeBullets.length →
      (fireTrackedShot bossX bossY s).activeBullets =
        (cleanupBullets s).activeBullets.tail ++
          [{ id := s.nextId, x := bossX, y := bossY }]) := by
  have hlen1 : (cleanupBullets s).activeBullets.length ≤ s.maxBullets :=
    le_trans (cleanupBullets_length_le s) hlen
  unfold fireTrackedShot
  dsimp only
  by_cases hcap : (cleanupBullets s).maxBullets ≤ (cleanupBullets s).activeBullets.length
  · rw [if_pos ⟨by rw [cleanupBullets_wave, hw], hcap⟩]
    rcases hAB : (cleanupBullets s).activeBullets with _ | ⟨oldest, rest⟩
    · exfalso
      rw [hAB] at hcap
      simp [cleanupBullets_max] at hcap
      omega
    · constructor
      · simp [createBullet, cleanupBullets_max]
        have : rest.length + 1 ≤ s.maxBullets := by
          have := hlen1
          rw [hAB] at this
          simpa using this
        omega
      · intro _
        simp [createBullet, cleanupBullets_nextId, hAB]
  · rw [if_neg (fun hAnd => hcap hAnd.2)]
    constructor
    · simp [createBullet]
      rw [cleanupBullets_max] at hcap
      omega
    · intro hge
      exfalso
      rw [cleanupBullets_max] at hcap
      exact hcap hge

/-- C3 witness: a tracked shot fired at the cap (five live on-screen
tracked bullets, maxBullets = 5) keeps the array within the cap. -/
theorem fireTrackedShot_cap_witness :
    (fireTrackedShot 540 400 capDemoState).activeBullets.length
      ≤ capDemoState.maxBullets :=
  (fireTrackedShot_cap 540 400 capDemoState rfl (by decide) (by decide)).1

/-! ## C4 — difficulty multiplier -/

/-- C4 counterexample.  The claim says the multiplier increases over
real time in Wave 1 only.  But startLevel registers the repeating
15-second difficulty event for every wave other than Wave 3: starting
Wave 2 and letting the event fire once leaves the multiplier at 1.2,
strictly above its starting value of 1. -/
theorem wave2_difficulty_grows :
    (difficultyTick (LevelManager.startLevel LevelState.init 60 2)).currentWave = 2 ∧
    (difficultyTick (LevelManager.startLevel LevelState.init 60 2)).difficultyMultiplier
      = 6/5 ∧
    (1 : ℚ) < 6/5 := by
  refine ⟨rfl, ?_, by norm_num⟩
  norm_num [difficultyTick, LevelManager.startLevel]

/-- C4 (amended): the multiplier starts at exactly 1 at each wave
start and, in every wave other than Wave 3 (so in Waves 1 and 2),
grows by exactly 0.2 per firing of the 15-second difficulty event,
monotonically; in Wave 3 no difficulty event is registered and the
multiplier stays at 1. -/
theorem difficulty_growth_per_wave (s0 : LevelState) (d w k : Nat) :
    (difficultyTick^[k] (LevelManager.startLevel s0 d w)).difficultyMultiplier
      = if w = 3 then 1 else 1 + k * (1/5 : ℚ) := by
  by_cases hw : w = 3
  · rw [if_pos hw]
    subst hw
    have hfix : difficultyTick (LevelManager.startLevel s0 d 3)
        = LevelManager.startLevel s0 d 3 :=
      difficultyTick_inactive _ (by simp [LevelManager.startLevel])
    rw [Function.iterate_fixed hfix]
    rfl
  · rw [if_neg hw]
    rw [iterate_difficultyTick_active k _ (by simp [LevelManager.startLevel, hw])]
    norm_num [LevelManager.startLevel]

/-! ## C5 — Wave 3 continuous weave fill -/

/-- C5: after the fixed timeline of absolute-offset events (which ends
at the 66-second cursor), startWave3Sequence starts the continuous
weave fill: a repeating check with a 300 ms interval (within the
claimed 200-300 ms) that spawns a new weaving hazard exactly when none
is live (and never a second one while one is live), running for the
fixed 30-second section, after which the closing event — the last
event of the schedule, at 96 s — removes the check without touching
the spawner (so an in-flight weave exits naturally) and calls
stopLevel, marking the wave complete. -/
theorem wave3_continuous_weave_fill (w : WeaveFill) :
    (wave3Opening.cursor = 66000 ∧
     wave3WeaveFillStartAt = 66000 ∧
     wave3EndAt = wave3WeaveFillStartAt + WEAVE_FILL_DURATION_MS ∧
     WEAVE_FILL_DURATION_MS = 30000 ∧
     200 ≤ WEAVE_FILL_CHECK_MS ∧ WEAVE_FILL_CHECK_MS ≤ 300 ∧
     wave3Schedule.events.getLast?
       = some (96000, W3Action.weaveFillStopAndEnd)) ∧
    (w.intervalActive = true → w.spawner.activeWeave = none →
      w.spawner.activeBall = none → w.spawner.activeSpike = none →
        (weaveFillTick true w).spawner.weavesSpawned
            = w.spawner.weavesSpawned + 1 ∧
        (weaveFillTick true w).spawner.activeWeave ≠ none) ∧
    (w.spawner.activeWeave ≠ none → weaveFillTick true w = w) ∧
    (stopWave3WeaveSpawning w).spawner = w.spawner ∧
    (stopWave3WeaveSpawning w).intervalActive = false := by
  refine ⟨by decide, fun hint hw hb hs => ?_, fun hlive => ?_, rfl, rfl⟩
  · have hspawn : spawnWeaveForWave3 w.spawner = spawnWeave w.spawner := by
      simp [spawnWeaveForWave3, hw]
    constructor <;>
      simp [weaveFillTick, hint, hw, hspawn, spawnWeave, hb, hs]
  · simp [weaveFillTick, hlive]

/-- C5 witness: one firing of the check on a registered fill with no
live obstacle spawns exactly one weaving hazard. -/
theorem wave3_continuous_weave_fill_witness :
    (weaveFillTick true
        { intervalActive := true, spawner := SpawnerState.init }).spawner.weavesSpawned
      = 1 ∧
    (weaveFillTick true
        { intervalActive := true, spawner := SpawnerState.init }).spawner.activeWeave
      ≠ none := by
  have h := (wave3_continuous_weave_fill
      { intervalActive := true, spawner := SpawnerState.init }).2.1
    rfl rfl rfl rfl
  simpa using h

/-! ## C6 — game over on zero lives -/

/-- C6 counterexample.  The claim says the gameOver transition clears
and releases all obstacle locks.  From a state with one life left, a
live tracked spike in the spike slot and four pending events, a hit
runs gameOver — every pending event is cancelled and the level
deactivated — yet the spike slot still holds its obstacle. -/
theorem gameOver_leaves_obstacle_slots_locked :
    (Game.updateLives hitState).gameOverShown = true ∧
    (Game.updateLives hitState).pendingEvents = 0 ∧
    (Game.updateLives hitState).levelActive = false ∧
    (Game.updateLives hitState).spawner.activeSpike = some 7 ∧
    some 7 ≠ (none : Option Nat) := by decide

/-- C6 (amended): a hit that brings the life counter to zero enters
the terminal gameOver state, which deactivates the level, cancels all
pending scheduled events and pauses physics — but leaves the
per-category obstacle slots untouched (they are only reset by the
scene restart). -/
theorem life_zero_triggers_gameOver (s : GameSceneState) (h : s.lives = 1) :
    (Game.updateLives s).gameOverShown = true ∧
    (Game.updateLives s).levelActive = false ∧
    (Game.updateLives s).pendingEvents = 0 ∧
    (Game.updateLives s).physicsPaused = true ∧
    (Game.updateLives s).lives = 0 ∧
    (Game.updateLives s).spawner = s.spawner := by
  simp [Game.updateLives, Game.gameOver, h]

/-- C6 witness: the amended statement evaluated at the concrete
one-life state. -/
theorem life_zero_triggers_gameOver_witness :
    (Game.updateLives hitState).gameOverShown = true ∧
    (Game.updateLives hitState).spawner = hitState.spawner :=
  ⟨(life_zero_triggers_gameOver hitState rfl).1,
   (life_zero_triggers_gameOver hitState rfl).2.2.2.2.2⟩

/-! ## C7 — slot release semantics -/

/-- C7 counterexample.  The claim says releasing a slot with a
non-matching reference is a no-op for every terminal-outcome handler.
But the off-screen exit check registered in spawnBall nulls
`activeBall` without comparing it to its own ball: run for a still
live, off-screen stale ball (x = 1600) while the slot holds a newer
ball (id 2), it clears the slot occupied by the newer ball. -/
theorem stale_ball_exit_clobbers_newer_slot :
    (ballExitHandler true 1600 { SpawnerState.init with activeBall := some 2 }).activeBall
      = none ∧
    ballExitHandler true 1600 { SpawnerState.init with activeBall := some 2 }
      ≠ { SpawnerState.init with activeBall := some 2 } := by
  have h1 : (ballExitHandler true 1600
      { SpawnerState.init with activeBall := some 2 }).activeBall = none := by
    norm_num [ballExitHandler]
  refine ⟨h1, fun hEq => ?_⟩
  rw [hEq] at h1
  simp at h1

/-- C7 (amended): for the spike ground-impact handler and the
player-collision handler the reference guard holds — a mismatched
release is a no-op and a double release is absorbed idempotently — but
the ball (and weave) off-screen exit checks clear their slot
unconditionally, so a stale exit callback can release a slot taken by
a newer obstacle. -/
theorem guarded_release_no_op (sprite : Nat) (s : SpawnerState) :
    (s.activeSpike ≠ some sprite → groundImpactHandler sprite s = s) ∧
    groundImpactHandler sprite (groundImpactHandler sprite s)
      = groundImpactHandler sprite s ∧
    ((s.activeSpike ≠ some sprite ∧ s.activeBall ≠ some sprite ∧
        s.activeWeave ≠ some sprite) → playerHitHandler sprite s = s) ∧
    playerHitHandler sprite (playerHitHandler sprite s)
      = playerHitHandler sprite s := by
  refine ⟨fun h => ?_, ?_, fun h => ?_, ?_⟩
  · simp [groundImpactHandler, h]
  · by_cases h : s.activeSpike = some sprite <;> simp [groundImpactHandler, h]
  · simp [playerHitHandler, h.1, h.2.1, h.2.2]
  · by_cases h1 : s.activeSpike = some sprite <;>
      by_cases h2 : s.activeBall = some sprite <;>
        by_cases h3 : s.activeWeave = some sprite <;>
          simp [playerHitHandler, h1, h2, h3]

/-- C7 witness: the amended statement evaluated for a mismatched
ground-impact release at a concrete state. -/
theorem guarded_release_no_op_witness :
    groundImpactHandler 5 { SpawnerState.init with activeSpike := some 9 }
      = { SpawnerState.init with activeSpike := some 9 } :=
  (guarded_release_no_op 5 _).1 (by decide)

/-! ## C8 — the Trap fallback -/

/-- C8: when the Trap combo scenario triggers while a rolling hazard
is live, it falls back to spawning exactly one targeted spike, leaves
the live rolling hazard alone, spawns no second rolling hazard and
schedules no follow-up. -/
theorem trap_fallback_single_spike (s : SpawnerState)
    (h : s.activeBall ≠ none) :
    (scenarioTheTrap s).1.ballsSpawned = s.ballsSpawned ∧
    (scenarioTheTrap s).1.activeBall = s.activeBall ∧
    (scenarioTheTrap s).1.spikesSpawned = s.spikesSpawned + 1 ∧
    (scenarioTheTrap s).2 = [] := by
  simp [scenarioTheTrap, spawnTargetedSpike, h]

/-- C8 witness: the Trap fallback evaluated with a concrete live
rolling hazard. -/
theorem trap_fallback_single_spike_witness :
    (scenarioTheTrap { SpawnerState.init with activeBall := some 3 }).1.ballsSpawned = 0 ∧
    (scenarioTheTrap { SpawnerState.init with activeBall := some 3 }).1.activeBall = some 3 ∧
    (scenarioTheTrap { SpawnerState.init with activeBall := some 3 }).1.spikesSpawned = 1 ∧
    (scenarioTheTrap { SpawnerState.init with activeBall := some 3 }).2 = [] :=
  trap_fallback_single_spike { SpawnerState.init with activeBall := some 3 } (by decide)

/-! ## C9 — unscaled targeted-spike parameters -/

/-- C9: at wave start the difficulty multiplier is exactly 1, and at
multiplier 1 a targeted spike computes its warning duration as exactly
800 ms and its fall gravity as exactly the unscaled base constant
4000. -/
theorem targeted_spike_unscaled_at_wave1_start :
    (LevelManager.startLevel LevelState.init 60 1).difficultyMultiplier = 1 ∧
    targetedSpikeWarningDuration 1 = 800 ∧
    targetedSpikeFallGravity 1 = SPIKE_BASE_GRAVITY ∧
    SPIKE_BASE_GRAVITY = 4000 := by
  refine ⟨rfl, ?_, ?_, rfl⟩ <;>
    norm_num [targetedSpikeWarningDuration, targetedSpikeFallGravity]

/-! ## C10 — cross-category spawn exclusion -/

/-- C10: spawnBall and spawnWeave return without creating anything
whenever any of the three active-obstacle slots is non-empty, so a
rolling or weaving hazard is never created while any tracked obstacle
is live. -/
theorem spawn_cross_category_exclusion (s : SpawnerState)
    (h : s.activeSpike ≠ none ∨ s.activeBall ≠ none ∨ s.activeWeave ≠ none) :
    spawnBall s = s ∧ spawnWeave s = s := by
  rcases h with h | h | h <;> exact ⟨by simp [spawnBall, h], by simp [spawnWeave, h]⟩

/-- C10 witness: both spawners evaluated at a concrete state with an
occupied spike slot. -/
theorem spawn_cross_category_exclusion_witness :
    spawnBall { SpawnerState.init with activeSpike := some 0 }
      = { SpawnerState.init with activeSpike := some 0 } ∧
    spawnWeave { SpawnerState.init with activeSpike := some 0 }
      = { SpawnerState.init with activeSpike := some 0 } :=
  spawn_cross_category_exclusion _ (Or.inl (by decide))

end DashJump
